import Mathlib

/-!
Shallow embedding of `src/terminal/TelemetryService.cpp` (EternalTerminal).

The module is a telemetry sink: an easylogging++ dispatch callback filters
error/fatal records, forwards them to sentry and appends enriched records to a
bounded, mutex-protected buffer; a background thread periodically flushes the
buffer to an HTTP endpoint; a write-once `shuttingDown` flag stops the loop and
suppresses HTTP submissions.  External SDK calls (sentry, httplib, nlohmann
json) are modelled at their interface boundary: a sentry event is a value, a
flush payload is the drained snapshot of the buffer.
-/

namespace ET

/-- `sentry_level_e` from sentry.h: the severity vocabulary of the crash
reporter, as used by `logLevelToSentry` and `sentryLevelToString`. -/
inductive SentryLevel where
  | debug
  | info
  | warning
  | error
  | fatal
  deriving DecidableEq, Repr

/-- `el::Level` from easylogging++ (the host logging framework): the full set
of levels a log record can carry. -/
inductive ElLevel where
  | globalLevel
  | trace
  | debug
  | fatal
  | error
  | warning
  | verbose
  | info
  | unknown
  deriving DecidableEq, Repr

/-- `logLevelToSentry` (TelemetryService.cpp lines 4-17): switch on the
easylogging level; Info/Warning/Error/Fatal map to their sentry counterpart,
everything else falls to the `default:` branch returning `SENTRY_LEVEL_DEBUG`. -/
def logLevelToSentry : ElLevel → SentryLevel
  | .info => .info
  | .warning => .warning
  | .error => .error
  | .fatal => .fatal
  | _ => .debug

/-- `sentryLevelToString` (lines 19-34): switch rendering each sentry level to
its name.  The C++ `default:` branch returning `"Unknown"` is unreachable for
values of the enumeration and has no counterpart here. -/
def sentryLevelToString : SentryLevel → String
  | .debug => "Debug"
  | .info => "Info"
  | .warning => "Warning"
  | .error => "Error"
  | .fatal => "Fatal"

/-- A structured log record: `std::map<string, string>`.  Modelled as an
association list with unique keys; field order is irrelevant to the code
(the C++ map is key-sorted), lookups read the first matching key. -/
abbrev LogRecord := List (String × String)

/-- `std::map::operator[]` assignment `m[k] = v`: replace the value stored
under `k`, or add the binding when `k` is absent. -/
def setValue (k v : String) : LogRecord → LogRecord
  | [] => [(k, v)]
  | (k0, v0) :: rest => if k0 = k then (k, v) :: rest else (k0, v0) :: setValue k v rest

/-- The enrichment performed by `logToDatadog` (lines 228-230) before
`push_back`: `message["Environment"] = environment; message["Application"] =
"Eternal Terminal"; message["Version"] = ET_VERSION;`.  `ET_VERSION` is a
build-time macro, passed here as the `version` argument. -/
def enrich (environment version : String) (message : LogRecord) : LogRecord :=
  setValue "Version" version
    (setValue "Application" "Eternal Terminal"
      (setValue "Environment" environment message))

/-- The capacity threshold in `logToDatadog` (line 224): records are ignored
when the current buffer size strictly exceeds `16 * 1024`. -/
def bufferCap : Nat := 16 * 1024

/-- A sentry event as produced by `sentry_value_new_message_event(level,
"stderr", message)` in `logToSentry`. -/
structure SentryEvent where
  level : SentryLevel
  logger : String
  message : String
  deriving DecidableEq, Repr

/-- The mutable state of a `TelemetryService` object relevant to the claims:
the opt-out flag, the environment string, the log buffer, the shutdown flag,
and whether the dispatch callback / sending thread were set up (both happen
only under `if (allowed)` in the constructor, lines 73-206). -/
structure TelemetryService where
  allowed : Bool
  environment : String
  logBuffer : List LogRecord
  shuttingDown : Bool
  dispatcherInstalled : Bool
  threadStarted : Bool
  deriving DecidableEq, Repr

/-- `TelemetryService::TelemetryService` (lines 62-207), the parts that decide
enablement: `allowed` starts as `_allow` and is forced to `false` whenever
`getenv("ET_NO_TELEMETRY")` returns non-null (any set value, line 69-72);
the dispatch callback is installed and the sending thread started only when
`allowed` holds.  `etNoTelemetry` is the environment variable's value, `none`
when unset. -/
def TelemetryService.construct (_allow : Bool) (environment : String)
    (etNoTelemetry : Option String) : TelemetryService :=
  let allowed := _allow && etNoTelemetry.isNone
  { allowed := allowed
    environment := environment
    logBuffer := []
    shuttingDown := false
    dispatcherInstalled := allowed
    threadStarted := allowed }

/-- `TelemetryService::logToSentry` (lines 215-220): returns early when not
`allowed`, otherwise captures one message event with logger `"stderr"`.
The produced event (if any) is the return value. -/
def TelemetryService.logToSentry (ts : TelemetryService) (level : SentryLevel)
    (message : String) : Option SentryEvent :=
  if ts.allowed then some { level := level, logger := "stderr", message := message }
  else none

/-- `TelemetryService::logToDatadog` (lines 222-232): under the buffer lock,
ignore the record when `logBuffer.size() > 16 * 1024`; otherwise enrich it with
Environment/Application/Version and `push_back`.  Note: this method does not
consult `allowed`. -/
def TelemetryService.logToDatadog (version : String) (ts : TelemetryService)
    (message : LogRecord) : TelemetryService :=
  if bufferCap < ts.logBuffer.length then ts
  else { ts with logBuffer := ts.logBuffer ++ [enrich ts.environment version message] }

/-- `TelemetryService::logToAll` (lines 234-238): forward to sentry and append
`{{"message", message}, {"level", sentryLevelToString(level)}}` to the log
buffer.  Returns the updated service state and the sentry event, if emitted. -/
def TelemetryService.logToAll (version : String) (ts : TelemetryService)
    (level : SentryLevel) (message : String) : TelemetryService × Option SentryEvent :=
  (ts.logToDatadog version [("message", message), ("level", sentryLevelToString level)],
   ts.logToSentry level message)

/-- `el::base::DispatchAction`: the discriminator the logging framework passes
to dispatch callbacks; only `NormalLog` is processed by the interceptor. -/
inductive DispatchAction where
  | normalLog
  | fileOnlyLog
  deriving DecidableEq, Repr

/-- The fields of `el::LogDispatchData` read by `TelemetryDispatcher::handle`:
the dispatch action, the originating logger's id, the record's level, and the
rendered message text (the result of `logBuilder()->build(...)`). -/
structure LogDispatchData where
  dispatchAction : DispatchAction
  loggerId : String
  level : ElLevel
  logText : String
  deriving DecidableEq, Repr

/-- `TelemetryDispatcher::handle` (lines 36-52): when a service exists, the
dispatch is a `NormalLog` and the logger is not `"stdout"`, and the level is
Fatal or Error, call `logToAll(logLevelToSentry(level), logText)`; otherwise do
nothing.  `serviceExists` models `TelemetryService::exists()`. -/
def TelemetryDispatcher.handle (serviceExists : Bool) (version : String)
    (ts : TelemetryService) (data : LogDispatchData) :
    TelemetryService × Option SentryEvent :=
  if serviceExists ∧ data.dispatchAction = DispatchAction.normalLog
      ∧ data.loggerId ≠ "stdout" then
    if data.level = ElLevel.fatal ∨ data.level = ElLevel.error then
      ts.logToAll version (logLevelToSentry data.level) data.logText
    else (ts, none)
  else (ts, none)

/-- Append a sequence of records through `logToDatadog`, in order. -/
def appendAll (version : String) (ts : TelemetryService)
    (msgs : List LogRecord) : TelemetryService :=
  msgs.foldl (fun s m => s.logToDatadog version m) ts

/-- The drain performed by a flush (lines 180-181): `payload =
json(logBuffer).dump(4); logBuffer.clear();` — the payload is the snapshot of
the whole buffer, and the buffer is left empty.  Serialization to JSON text is
external; the payload is modelled as the drained snapshot itself. -/
def TelemetryService.drain (ts : TelemetryService) :
    List LogRecord × TelemetryService :=
  (ts.logBuffer, { ts with logBuffer := [] })

/-- The scheduler state owned by the `logSendingThread` loop: the shared log
buffer and the absolute next-flush deadline `nextDumpTime`.  Time is modelled
in seconds as an integer. -/
structure SchedState where
  logBuffer : List LogRecord
  nextDumpTime : Int
  deriving DecidableEq, Repr

/-- The outcome of one loop iteration: the new scheduler state, the payload
handed to `logHttpClient.Post` (`none` when no POST was issued this cycle), and
whether the iteration exited the loop via `break`. -/
structure FlushStepResult where
  state : SchedState
  posted : Option (List LogRecord)
  exited : Bool
  deriving DecidableEq, Repr

/-- One iteration of the `logSendingThread` loop body (lines 166-204): read the
buffer size; if non-zero and (size ≥ 1024 or `nextDumpTime <` now), set
`nextDumpTime` to now + 30 s, drain the buffer into the payload, then re-check
`shuttingDown`: if it is set, `break` without posting (the payload is
discarded); otherwise POST the payload.  `sdRecheck` is the value of the
write-once `shuttingDown` flag observed at the line-191 re-check; since the
flag only ever goes `false → true`, an iteration entered with the flag already
`true` observes `true` here. -/
def flushLoopBody (sdRecheck : Bool) (now : Int) (st : SchedState) :
    FlushStepResult :=
  if st.logBuffer.length ≠ 0 then
    if 1024 ≤ st.logBuffer.length ∨ st.nextDumpTime < now then
      let drained : SchedState := { logBuffer := [], nextDumpTime := now + 30 }
      if sdRecheck then { state := drained, posted := none, exited := true }
      else { state := drained, posted := some st.logBuffer, exited := false }
    else { state := st, posted := none, exited := false }
  else { state := st, posted := none, exited := false }

/-- The state of the telemetry config file `telemetry.ini` at
`getConfigHome() + "/et/telemetry.ini"`: absent, unreadable (`ini.LoadFile`
returns a non-zero error), readable but missing the `[Sentry] Id` key, or
holding a stored identifier. -/
inductive ConfigFile where
  | unreadable
  | missingKey
  | withId (storedId : String)
  deriving DecidableEq, Repr

/-- The identity-initialization block of the constructor (lines 92-127): if the
config file exists, load it — `STFATAL` (fatal abort, modelled as `.error`)
when the load fails or the `Sentry/Id` key is absent, otherwise rebuild the
stored id; if the file does not exist, keep the freshly generated `uuid4`
(`freshId`) and write it to a new config file.  Returns the identifier used
and the resulting file state. -/
def getOrCreateIdentity (file : Option ConfigFile) (freshId : String) :
    Except String (String × Option ConfigFile) :=
  match file with
  | some ConfigFile.unreadable => Except.error "Invalid config file"
  | some ConfigFile.missingKey => Except.error "Invalid telemetry config"
  | some (ConfigFile.withId s) => Except.ok (s, some (ConfigFile.withId s))
  | none => Except.ok (freshId, some (ConfigFile.withId freshId))

/-- Whether an identity-initialization result succeeded. -/
def identityOk : Except String (String × Option ConfigFile) → Bool
  | Except.ok _ => true
  | Except.error _ => false

/-- A record carries all three enrichment keys. -/
def hasEnrichmentKeys (r : LogRecord) : Bool :=
  (r.lookup "Environment").isSome && (r.lookup "Application").isSome
    && (r.lookup "Version").isSome

lemma lookup_setValue_self (k v : String) (m : LogRecord) :
    (setValue k v m).lookup k = some v := by
  induction m with
  | nil => simp [setValue, List.lookup]
  | cons hd tl ih =>
    obtain ⟨k0, v0⟩ := hd
    by_cases h : k0 = k
    · simp [setValue, h, List.lookup]
    · simp only [setValue, if_neg h, List.lookup]
      have : (k == k0) = false := by
        simp [beq_iff_eq]
        exact fun he => h he.symm
      simp [this, ih]

lemma lookup_setValue_of_ne (k k0 v : String) (m : LogRecord) (h : k ≠ k0) :
    (setValue k0 v m).lookup k = m.lookup k := by
  have hbeq : (k == k0) = false := by simp [beq_iff_eq, h]
  induction m with
  | nil => simp [setValue, List.lookup, hbeq]
  | cons hd tl ih =>
    obtain ⟨k1, v1⟩ := hd
    by_cases h1 : k1 = k0
    · subst h1
      simp [setValue, List.lookup, hbeq]
    · simp only [setValue, if_neg h1, List.lookup]
      by_cases h2 : k = k1
      · subst h2; simp
      · have : (k == k1) = false := by simp [beq_iff_eq, h2]
        simp [this, ih]

lemma lookup_enrich_environment (env version : String) (m : LogRecord) :
    (enrich env version m).lookup "Environment" = some env := by
  unfold enrich
  rw [lookup_setValue_of_ne _ _ _ _ (by decide),
    lookup_setValue_of_ne _ _ _ _ (by decide), lookup_setValue_self]

lemma lookup_enrich_application (env version : String) (m : LogRecord) :
    (enrich env version m).lookup "Application" = some "Eternal Terminal" := by
  unfold enrich
  rw [lookup_setValue_of_ne _ _ _ _ (by decide), lookup_setValue_self]

lemma lookup_enrich_version (env version : String) (m : LogRecord) :
    (enrich env version m).lookup "Version" = some version := by
  unfold enrich
  rw [lookup_setValue_self]

lemma lookup_enrich_of_ne (env version k : String) (m : LogRecord)
    (h1 : k ≠ "Environment") (h2 : k ≠ "Application") (h3 : k ≠ "Version") :
    (enrich env version m).lookup k = m.lookup k := by
  unfold enrich
  rw [lookup_setValue_of_ne _ _ _ _ h3, lookup_setValue_of_ne _ _ _ _ h2,
    lookup_setValue_of_ne _ _ _ _ h1]

lemma hasEnrichmentKeys_enrich (env version : String) (m : LogRecord) :
    hasEnrichmentKeys (enrich env version m) = true := by
  simp [hasEnrichmentKeys, lookup_enrich_environment, lookup_enrich_application,
    lookup_enrich_version]

lemma logToDatadog_of_le (version : String) (ts : TelemetryService)
    (m : LogRecord) (h : ts.logBuffer.length ≤ bufferCap) :
    ts.logToDatadog version m
      = { ts with logBuffer := ts.logBuffer ++ [enrich ts.environment version m] } := by
  unfold TelemetryService.logToDatadog
  rw [if_neg (by omega)]

lemma logToDatadog_environment (version : String) (ts : TelemetryService)
    (m : LogRecord) : (ts.logToDatadog version m).environment = ts.environment := by
  unfold TelemetryService.logToDatadog
  split <;> rfl

lemma appendAll_logBuffer (version : String) (msgs : List LogRecord) :
    ∀ ts : TelemetryService, ts.logBuffer.length + msgs.length ≤ bufferCap + 1 →
      (appendAll version ts msgs).logBuffer
        = ts.logBuffer ++ msgs.map (enrich ts.environment version) := by
  induction msgs with
  | nil => intro ts _; simp [appendAll]
  | cons m rest ih =>
    intro ts h
    have hts : ts.logBuffer.length ≤ bufferCap := by
      simp only [List.length_cons] at h; omega
    have hstep := logToDatadog_of_le version ts m hts
    have : appendAll version ts (m :: rest)
        = appendAll version (ts.logToDatadog version m) rest := by
      simp [appendAll]
    rw [this, hstep]
    have hlen : ({ ts with
        logBuffer := ts.logBuffer ++ [enrich ts.environment version m] } :
          TelemetryService).logBuffer.length + rest.length ≤ bufferCap + 1 := by
      simp only [List.length_append, List.length_singleton]
      simp only [List.length_cons] at h; omega
    rw [ih _ hlen]
    simp

lemma appendAll_all_enriched (version : String) (msgs : List LogRecord) :
    ∀ ts : TelemetryService, ts.logBuffer.all hasEnrichmentKeys = true →
      (appendAll version ts msgs).logBuffer.all hasEnrichmentKeys = true := by
  induction msgs with
  | nil => intro ts h; simpa [appendAll] using h
  | cons m rest ih =>
    intro ts h
    have : appendAll version ts (m :: rest)
        = appendAll version (ts.logToDatadog version m) rest := by
      simp [appendAll]
    rw [this]
    apply ih
    unfold TelemetryService.logToDatadog
    split
    · exact h
    · simp only [List.all_append, List.all_cons, List.all_nil, Bool.and_true]
      simp [h, hasEnrichmentKeys_enrich]

/-- C1: for every sequence of N ≤ capacity appends into the log buffer via
`logToDatadog`, starting from a freshly constructed service, a subsequent drain
yields exactly the N stored (enriched) records in append order — no loss, no
duplication, FIFO preserved — and the buffer is empty afterwards. -/
theorem c1_fifo_drain (env version : String) (msgs : List LogRecord)
    (h : msgs.length ≤ bufferCap) :
    ((appendAll version (TelemetryService.construct true env none) msgs).drain).1
        = msgs.map (enrich env version)
      ∧ ((appendAll version
          (TelemetryService.construct true env none) msgs).drain).2.logBuffer = [] := by
  have hbuf := appendAll_logBuffer version msgs
    (TelemetryService.construct true env none) (by simp [TelemetryService.construct]; omega)
  constructor
  · simpa [TelemetryService.drain, TelemetryService.construct] using hbuf
  · simp [TelemetryService.drain]

/-- Witness for C1 at a concrete two-record sequence. -/
theorem c1_fifo_drain_witness :
    ([[("a", "b")], [("c", "d")]] : List LogRecord).length ≤ bufferCap
      ∧ (((appendAll "1" (TelemetryService.construct true "prod" none)
            [[("a", "b")], [("c", "d")]]).drain).1
          = ([[("a", "b")], [("c", "d")]] : List LogRecord).map (enrich "prod" "1")
        ∧ ((appendAll "1" (TelemetryService.construct true "prod" none)
            [[("a", "b")], [("c", "d")]]).drain).2.logBuffer = []) :=
  ⟨by decide, c1_fifo_drain "prod" "1" [[("a", "b")], [("c", "d")]] (by decide)⟩

/-- C2: in every iteration of the sending-thread loop body that observes
`shuttingDown = true` at the re-check before the HTTP POST — which is every
iteration entered with the write-once flag already true — no payload is handed
to `logHttpClient.Post`: the submission is aborted and the serialized payload
of that cycle is discarded. -/
theorem c2_no_post_after_shutdown (now : Int) (st : SchedState) :
    (flushLoopBody true now st).posted = none := by
  unfold flushLoopBody
  split
  · split
    · simp
    · rfl
  · rfl

/-- C3 counterexample: the claim says the buffer never grows past 16,384
records, but `logToDatadog` only drops when size is strictly greater than
16 * 1024, so an append at size exactly 16,384 is accepted and the buffer
reaches 16,385 records. -/
theorem c3_counterexample :
    ((TelemetryService.mk true "e" (List.replicate (16 * 1024) []) false true
        true).logToDatadog "v" []).logBuffer.length = 16 * 1024 + 1 := by
  have hlen : (List.replicate (16 * 1024) ([] : LogRecord)).length = 16 * 1024 :=
    List.length_replicate _ _
  have hcond : ¬ (bufferCap
      < (TelemetryService.mk true "e" (List.replicate (16 * 1024) []) false true
          true).logBuffer.length) := by
    show ¬ (bufferCap < (List.replicate (16 * 1024) ([] : LogRecord)).length)
    rw [hlen]; unfold bufferCap; omega
  unfold TelemetryService.logToDatadog
  rw [if_neg hcond]
  show (List.replicate (16 * 1024) ([] : LogRecord) ++ [enrich "e" "v" []]).length
      = 16 * 1024 + 1
  rw [List.length_append, hlen, List.length_singleton]

/-- C3 amended: the buffer size never grows past 16,385 records (the check
drops a new arrival only when the size already strictly exceeds 16 * 1024);
at or past that point the newly arriving record is dropped silently and the
service state is unchanged, and no older accepted record is ever evicted (the
old buffer is always a prefix of the new one). -/
theorem c3_capacity (ts : TelemetryService) (version : String) (m : LogRecord)
    (h : ts.logBuffer.length ≤ bufferCap + 1) :
    (ts.logToDatadog version m).logBuffer.length ≤ bufferCap + 1
      ∧ (ts.logToDatadog version m).logBuffer.take ts.logBuffer.length = ts.logBuffer
      ∧ (bufferCap < ts.logBuffer.length → ts.logToDatadog version m = ts) := by
  unfold TelemetryService.logToDatadog
  by_cases hc : bufferCap < ts.logBuffer.length
  · rw [if_pos hc]
    exact ⟨h, List.take_length ts.logBuffer, fun _ => rfl⟩
  · rw [if_neg hc]
    refine ⟨?_, ?_, fun hgt => absurd hgt hc⟩
    · simp only [List.length_append, List.length_singleton]; omega
    · exact List.take_left ts.logBuffer _

/-- Witness for C3's amended theorem at a service holding one record. -/
theorem c3_capacity_witness :
    (TelemetryService.mk true "e" [[("x", "y")]] false true
        true).logBuffer.length ≤ bufferCap + 1
      ∧ (((TelemetryService.mk true "e" [[("x", "y")]] false true
            true).logToDatadog "v" []).logBuffer.length ≤ bufferCap + 1
        ∧ ((TelemetryService.mk true "e" [[("x", "y")]] false true
            true).logToDatadog "v" []).logBuffer.take
              (TelemetryService.mk true "e" [[("x", "y")]] false true
                true).logBuffer.length
            = (TelemetryService.mk true "e" [[("x", "y")]] false true
                true).logBuffer
        ∧ (bufferCap < (TelemetryService.mk true "e" [[("x", "y")]] false true
              true).logBuffer.length
            → (TelemetryService.mk true "e" [[("x", "y")]] false true
                true).logToDatadog "v" []
              = TelemetryService.mk true "e" [[("x", "y")]] false true true)) :=
  ⟨by decide, c3_capacity _ "v" [] (by decide)⟩

/-- C4 counterexample: the claim says a flush is performed when the current
time is at or past the deadline, but the code flushes only when `nextDumpTime`
is strictly less than now; with one buffered record, now = deadline = 0, no
POST is issued even though the claim requires one. -/
theorem c4_counterexample :
    (flushLoopBody false 0
        { logBuffer := [[("message", "m")]], nextDumpTime := 0 }).posted = none
      ∧ ([[("message", "m")]] : List LogRecord).length = 1
      ∧ (0 : Int) ≥ 0 := by
  refine ⟨?_, by decide, by decide⟩
  unfold flushLoopBody
  rw [if_pos (by decide), if_neg (by decide)]

/-- C4 amended: on every wake of the loop with a non-empty buffer and shutdown
not begun, a flush (a POST of the drained snapshot) is performed exactly when
the buffer size is at least 1024 OR the current time is strictly past the next
scheduled deadline; when a flush is performed the deadline is reset to
now + 30 seconds and the buffer is left empty.  In particular the high-water
mark triggers regardless of time, and a strictly-expired deadline triggers
with only one buffered record. -/
theorem c4_flush_policy (now : Int) (st : SchedState) (h : st.logBuffer ≠ []) :
    ((flushLoopBody false now st).posted
        = if 1024 ≤ st.logBuffer.length ∨ st.nextDumpTime < now
          then some st.logBuffer else none)
      ∧ ((flushLoopBody false now st).posted.isSome = true
          → (flushLoopBody false now st).state.nextDumpTime = now + 30
            ∧ (flushLoopBody false now st).state.logBuffer = []) := by
  have hne : st.logBuffer.length ≠ 0 := by
    simpa [List.length_eq_zero] using h
  unfold flushLoopBody
  rw [if_pos hne]
  by_cases hc : 1024 ≤ st.logBuffer.length ∨ st.nextDumpTime < now
  · rw [if_pos hc, if_pos hc]
    exact ⟨rfl, fun _ => ⟨rfl, rfl⟩⟩
  · rw [if_neg hc, if_neg hc]
    exact ⟨rfl, by simp⟩

/-- Witness for C4's amended theorem: one record, deadline strictly past. -/
theorem c4_flush_policy_witness :
    (({ logBuffer := [[("message", "m")]], nextDumpTime := 0 } :
          SchedState).logBuffer ≠ [])
      ∧ (((flushLoopBody false 1
            { logBuffer := [[("message", "m")]], nextDumpTime := 0 }).posted
          = if 1024 ≤ ({ logBuffer := [[("message", "m")]], nextDumpTime := 0 } :
                SchedState).logBuffer.length
              ∨ ({ logBuffer := [[("message", "m")]], nextDumpTime := 0 } :
                SchedState).nextDumpTime < 1
            then some ({ logBuffer := [[("message", "m")]], nextDumpTime := 0 } :
                SchedState).logBuffer else none)
        ∧ ((flushLoopBody false 1
              { logBuffer := [[("message", "m")]], nextDumpTime := 0 }).posted.isSome
                = true
            → (flushLoopBody false 1
                { logBuffer := [[("message", "m")]], nextDumpTime := 0
                  }).state.nextDumpTime = 1 + 30
              ∧ (flushLoopBody false 1
                  { logBuffer := [[("message", "m")]], nextDumpTime := 0
                    }).state.logBuffer = [])) :=
  ⟨by decide, c4_flush_policy 1 { logBuffer := [[("message", "m")]], nextDumpTime := 0 }
    (by decide)⟩

/-- A freshly constructed, enabled service (no opt-out variable set). -/
def sampleService : TelemetryService := TelemetryService.construct true "e" none

/-- A qualifying dispatch: error level, normal mode, non-stdout logger. -/
def sampleDispatch : LogDispatchData :=
  { dispatchAction := DispatchAction.normalLog
    loggerId := "default"
    level := ElLevel.error
    logText := "boom" }

/-- C5: for every event delivered to the interceptor callback of a live
(allowed, non-full) service, the event is forwarded to both the sentry sink
and the log buffer if and only if its level is Error or Fatal, its logger is
not `"stdout"`, and it is a `NormalLog` dispatch; when the condition fails,
the service state is untouched and no sentry event is emitted. -/
theorem c5_interceptor_filter (version : String) (ts : TelemetryService)
    (d : LogDispatchData) (hallow : ts.allowed = true)
    (hcap : ts.logBuffer.length ≤ bufferCap) :
    (((TelemetryDispatcher.handle true version ts d).2.isSome = true
        ∧ (TelemetryDispatcher.handle true version ts d).1.logBuffer.length
            = ts.logBuffer.length + 1)
      ↔ ((d.level = ElLevel.error ∨ d.level = ElLevel.fatal)
          ∧ d.loggerId ≠ "stdout" ∧ d.dispatchAction = DispatchAction.normalLog))
    ∧ (¬ ((d.level = ElLevel.error ∨ d.level = ElLevel.fatal)
          ∧ d.loggerId ≠ "stdout" ∧ d.dispatchAction = DispatchAction.normalLog)
        → TelemetryDispatcher.handle true version ts d = (ts, none)) := by
  unfold TelemetryDispatcher.handle
  split_ifs with hA hB
  · have heq := logToDatadog_of_le version ts
      [("message", d.logText), ("level", sentryLevelToString (logLevelToSentry d.level))]
      hcap
    have hq : (d.level = ElLevel.error ∨ d.level = ElLevel.fatal)
        ∧ d.loggerId ≠ "stdout" ∧ d.dispatchAction = DispatchAction.normalLog :=
      ⟨hB.elim Or.inr Or.inl, hA.2.2, hA.2.1⟩
    refine ⟨⟨fun _ => hq, fun _ => ⟨?_, ?_⟩⟩, fun hn => absurd hq hn⟩
    · simp [TelemetryService.logToAll, TelemetryService.logToSentry, hallow]
    · simp [TelemetryService.logToAll, heq]
  · have hq : ¬ ((d.level = ElLevel.error ∨ d.level = ElLevel.fatal)
        ∧ d.loggerId ≠ "stdout" ∧ d.dispatchAction = DispatchAction.normalLog) :=
      fun hqq => hB (hqq.1.elim Or.inr Or.inl)
    exact ⟨⟨fun hl => absurd hl.1 (by simp), fun hqq => absurd hqq hq⟩, fun _ => rfl⟩
  · have hq : ¬ ((d.level = ElLevel.error ∨ d.level = ElLevel.fatal)
        ∧ d.loggerId ≠ "stdout" ∧ d.dispatchAction = DispatchAction.normalLog) :=
      fun hqq => hA ⟨rfl, hqq.2.2, hqq.2.1⟩
    exact ⟨⟨fun hl => absurd hl.1 (by simp), fun hqq => absurd hqq hq⟩, fun _ => rfl⟩

/-- Witness for C5 at a concrete qualifying dispatch. -/
theorem c5_interceptor_filter_witness :
    sampleService.allowed = true
    ∧ sampleService.logBuffer.length ≤ bufferCap
    ∧ ((((TelemetryDispatcher.handle true "v" sampleService sampleDispatch).2.isSome
            = true
          ∧ (TelemetryDispatcher.handle true "v" sampleService
              sampleDispatch).1.logBuffer.length
              = sampleService.logBuffer.length + 1)
        ↔ ((sampleDispatch.level = ElLevel.error ∨ sampleDispatch.level = ElLevel.fatal)
            ∧ sampleDispatch.loggerId ≠ "stdout"
            ∧ sampleDispatch.dispatchAction = DispatchAction.normalLog))
      ∧ (¬ ((sampleDispatch.level = ElLevel.error ∨ sampleDispatch.level = ElLevel.fatal)
            ∧ sampleDispatch.loggerId ≠ "stdout"
            ∧ sampleDispatch.dispatchAction = DispatchAction.normalLog)
          → TelemetryDispatcher.handle true "v" sampleService sampleDispatch
            = (sampleService, none))) :=
  ⟨by decide, by decide, c5_interceptor_filter "v" sampleService sampleDispatch
    (by decide) (by decide)⟩

/-- C6 counterexample: the claim says a service constructed with
ET_NO_TELEMETRY set to a non-empty value buffers no records, but
`logToDatadog` does not consult `allowed`, so a direct call on the disabled
service still appends to the log buffer. -/
theorem c6_counterexample :
    ((TelemetryService.construct true "e" (some "1")).logToDatadog "v"
        [("message", "m")]).logBuffer.length = 1 := by
  decide

/-- C6 amended: with ET_NO_TELEMETRY set to a non-empty value at construction,
`allowed` is forced to false, the dispatch callback is not installed and the
sending thread is not started (so no intercepted events and no HTTP calls
occur), and `logToSentry` emits nothing; however `logToDatadog` does not check
`allowed`, so a direct call still appends the enriched record to the buffer —
the record is merely never transmitted. -/
theorem c6_disabled (allow : Bool) (env s version message : String)
    (level : SentryLevel) (m : LogRecord) (hs : s ≠ "") :
    (TelemetryService.construct allow env (some s)).allowed = false
    ∧ (TelemetryService.construct allow env (some s)).dispatcherInstalled = false
    ∧ (TelemetryService.construct allow env (some s)).threadStarted = false
    ∧ (TelemetryService.construct allow env (some s)).logToSentry level message = none
    ∧ ((TelemetryService.construct allow env (some s)).logToDatadog version
        m).logBuffer = [enrich env version m] := by
  unfold TelemetryService.construct TelemetryService.logToSentry
    TelemetryService.logToDatadog
  simp [bufferCap]

/-- Witness for C6's amended theorem at concrete inputs. -/
theorem c6_disabled_witness :
    ("1" : String) ≠ ""
    ∧ ((TelemetryService.construct true "e" (some "1")).allowed = false
      ∧ (TelemetryService.construct true "e" (some "1")).dispatcherInstalled = false
      ∧ (TelemetryService.construct true "e" (some "1")).threadStarted = false
      ∧ (TelemetryService.construct true "e" (some "1")).logToSentry
          SentryLevel.error "m" = none
      ∧ ((TelemetryService.construct true "e" (some "1")).logToDatadog "v"
          [("k", "w")]).logBuffer = [enrich "e" "v" [("k", "w")]]) :=
  ⟨by decide, c6_disabled true "e" "1" "v" "m" SentryLevel.error [("k", "w")] (by decide)⟩

/-- C7: when the config file exists but is unreadable (load error) or is
missing the `Sentry/Id` key, identity initialization fails fatally and no
fallback identifier is produced. -/
theorem c7_fatal_on_corrupt (file : Option ConfigFile) (freshId : String)
    (h : file = some ConfigFile.unreadable ∨ file = some ConfigFile.missingKey) :
    identityOk (getOrCreateIdentity file freshId) = false := by
  rcases h with h | h <;> subst h <;> rfl

/-- Witness for C7 at an unreadable config file. -/
theorem c7_fatal_on_corrupt_witness :
    ((some ConfigFile.unreadable : Option ConfigFile) = some ConfigFile.unreadable
      ∨ (some ConfigFile.unreadable : Option ConfigFile) = some ConfigFile.missingKey)
    ∧ identityOk (getOrCreateIdentity (some ConfigFile.unreadable) "fresh") = false :=
  ⟨Or.inl rfl, c7_fatal_on_corrupt (some ConfigFile.unreadable) "fresh" (Or.inl rfl)⟩

/-- C8: identity persistence round-trips — the first construction against an
absent config file keeps the fresh identifier `u` and writes it; a second
construction against the resulting file returns the same `u` (the second fresh
identifier `v` is unused); deleting the file and constructing again returns
the new fresh identifier `w`, which differs from `u` whenever the generator
does not collide. -/
theorem c8_identity_roundtrip (u v w : String) (hw : w ≠ u) :
    getOrCreateIdentity none u = Except.ok (u, some (ConfigFile.withId u))
    ∧ getOrCreateIdentity (some (ConfigFile.withId u)) v
        = Except.ok (u, some (ConfigFile.withId u))
    ∧ getOrCreateIdentity none w = Except.ok (w, some (ConfigFile.withId w))
    ∧ w ≠ u :=
  ⟨rfl, rfl, rfl, hw⟩

/-- Witness for C8 at concrete identifiers. -/
theorem c8_identity_roundtrip_witness :
    ("c" : String) ≠ "a"
    ∧ (getOrCreateIdentity none "a" = Except.ok ("a", some (ConfigFile.withId "a"))
      ∧ getOrCreateIdentity (some (ConfigFile.withId "a")) "b"
          = Except.ok ("a", some (ConfigFile.withId "a"))
      ∧ getOrCreateIdentity none "c" = Except.ok ("c", some (ConfigFile.withId "c"))
      ∧ ("c" : String) ≠ "a") :=
  ⟨by decide, c8_identity_roundtrip "a" "b" "c" (by decide)⟩

/-- C9: the record stored by `logToDatadog` is the input enriched with
`"Environment" ↦ environment`, `"Application" ↦ "Eternal Terminal"` and
`"Version" ↦ ET_VERSION` — overwriting any caller-supplied values under those
keys — while every other key's value is unchanged; consequently every record
in the buffer after any sequence of appends carries all three keys. -/
theorem c9_enrichment (env version k : String) (m : LogRecord)
    (msgs : List LogRecord)
    (hk1 : k ≠ "Environment") (hk2 : k ≠ "Application") (hk3 : k ≠ "Version") :
    (enrich env version m).lookup "Environment" = some env
    ∧ (enrich env version m).lookup "Application" = some "Eternal Terminal"
    ∧ (enrich env version m).lookup "Version" = some version
    ∧ (enrich env version m).lookup k = m.lookup k
    ∧ ((TelemetryService.construct true env none).logToDatadog version m).logBuffer
        = [enrich env version m]
    ∧ (appendAll version (TelemetryService.construct true env none)
        msgs).logBuffer.all hasEnrichmentKeys = true := by
  refine ⟨lookup_enrich_environment env version m,
    lookup_enrich_application env version m, lookup_enrich_version env version m,
    lookup_enrich_of_ne env version k m hk1 hk2 hk3, ?_, ?_⟩
  · unfold TelemetryService.construct TelemetryService.logToDatadog
    simp [bufferCap]
  · exact appendAll_all_enriched version msgs _ (by simp [TelemetryService.construct])

/-- Witness for C9: a caller-supplied "Version" is overwritten, "message" is
preserved. -/
theorem c9_enrichment_witness :
    ("message" : String) ≠ "Environment"
    ∧ ("message" : String) ≠ "Application"
    ∧ ("message" : String) ≠ "Version"
    ∧ ((enrich "e" "v" [("message", "m"), ("Version", "hacked")]).lookup "Environment"
          = some "e"
      ∧ (enrich "e" "v" [("message", "m"), ("Version", "hacked")]).lookup "Application"
          = some "Eternal Terminal"
      ∧ (enrich "e" "v" [("message", "m"), ("Version", "hacked")]).lookup "Version"
          = some "v"
      ∧ (enrich "e" "v" [("message", "m"), ("Version", "hacked")]).lookup "message"
          = ([("message", "m"), ("Version", "hacked")] : LogRecord).lookup "message"
      ∧ ((TelemetryService.construct true "e" none).logToDatadog "v"
          [("message", "m"), ("Version", "hacked")]).logBuffer
          = [enrich "e" "v" [("message", "m"), ("Version", "hacked")]]
      ∧ (appendAll "v" (TelemetryService.construct true "e" none)
          [[("a", "b")]]).logBuffer.all hasEnrichmentKeys = true) :=
  ⟨by decide, by decide, by decide,
    c9_enrichment "e" "v" "message" [("message", "m"), ("Version", "hacked")]
      [[("a", "b")]] (by decide) (by decide) (by decide)⟩

/-- C10: composing the level translation with the sentry-level rendering is
the identity on the names of Info, Warning, Error and Fatal, and every other
easylogging level translates to the sentry Debug level, rendering as
"Debug". -/
theorem c10_level_roundtrip : ∀ l : ElLevel,
    sentryLevelToString (logLevelToSentry l)
        = (if l = ElLevel.info then "Info" else if l = ElLevel.warning then "Warning"
            else if l = ElLevel.error then "Error" else if l = ElLevel.fatal then "Fatal"
            else "Debug")
    ∧ (l = ElLevel.info ∨ l = ElLevel.warning ∨ l = ElLevel.error ∨ l = ElLevel.fatal
        ∨ logLevelToSentry l = SentryLevel.debug) := by
  intro l
  cases l <;> exact ⟨by decide, by decide⟩

end ET
